import Mathlib

/-!
Verification of `src/pipecat/audio/turn/base_turn_analyzer.py`: the
`EndOfTurnState` enumeration and the `BaseTurnAnalyzer` abstract base class
(sample-rate negotiation, accessor, and the abstract method signatures).

Python integers are embedded as `Int`; `Optional[int]` as `Option Int`.
The expression `self._init_sample_rate or sample_rate` uses Python
truthiness on an `Optional[int]`: `None` and `0` are falsy, every other
integer is truthy.
-/

/-- Python `a or b` for `a : Optional[int]`, `b : int`: yields `b` when `a`
is `None` or `0` (falsy), otherwise the integer held by `a`. -/
def pyOrOptInt (a : Option Int) (b : Int) : Int :=
  match a with
  | none => b
  | some x => if x = 0 then b else x

/-- `EndOfTurnState` enumeration from the source: `COMPLETE = 1`,
`INCOMPLETE = 2`. -/
inductive EndOfTurnState where
  | COMPLETE
  | INCOMPLETE
deriving DecidableEq

/-- The numeric value each enumeration member carries in the source. -/
def EndOfTurnState.value : EndOfTurnState → Nat
  | .COMPLETE => 1
  | .INCOMPLETE => 2

/-- State of a `BaseTurnAnalyzer`. The base class itself holds exactly the
two fields assigned in `__init__`; `impl` stands for whatever extra state a
concrete subclass adds (the class is abstract), so that frame conditions on
the base-class methods can be stated. -/
structure BaseTurnAnalyzer (σ : Type) where
  _init_sample_rate : Option Int
  _sample_rate : Int
  impl : σ

/-- `BaseTurnAnalyzer.__init__`: stores the optional fixed rate in
`_init_sample_rate` and sets `_sample_rate` to `0`. -/
def BaseTurnAnalyzer.init {σ : Type} (sample_rate : Option Int) (s0 : σ) :
    BaseTurnAnalyzer σ :=
  { _init_sample_rate := sample_rate, _sample_rate := 0, impl := s0 }

/-- The `sample_rate` read-only property: returns `self._sample_rate`. -/
def BaseTurnAnalyzer.sample_rate {σ : Type} (self : BaseTurnAnalyzer σ) : Int :=
  self._sample_rate

/-- `set_sample_rate`: `self._sample_rate = self._init_sample_rate or sample_rate`. -/
def BaseTurnAnalyzer.set_sample_rate {σ : Type} (self : BaseTurnAnalyzer σ)
    (sample_rate : Int) : BaseTurnAnalyzer σ :=
  { self with _sample_rate := pyOrOptInt self._init_sample_rate sample_rate }

/-- A sequence of `set_sample_rate` calls, applied in order. -/
def BaseTurnAnalyzer.setAll {σ : Type} (self : BaseTurnAnalyzer σ)
    (rates : List Int) : BaseTurnAnalyzer σ :=
  rates.foldl BaseTurnAnalyzer.set_sample_rate self

/-- Signature of the abstract method `append_audio(buffer, is_speech)`:
consumes the subclass state, a byte buffer and the speech tag, and produces
an `EndOfTurnState` together with the updated subclass state. -/
def AppendAudioImpl (σ : Type) : Type :=
  σ → List Nat → Bool → EndOfTurnState × σ

/-- Signature of the abstract method `analyze_end_of_turn()`: produces an
`EndOfTurnState` and optional metrics data (type `μ`, opaque here), plus the
updated subclass state. -/
def AnalyzeEndOfTurnImpl (σ μ : Type) : Type :=
  σ → (EndOfTurnState × Option μ) × σ

/-- Modelled from the spec: `clear` and `speech_triggered` are abstract in
`base_turn_analyzer.py` (no body under `src/`), so this concrete analyzer
state follows §4.4 of the spec: `clear()` resets all internal accumulation
(buffers and `speech_triggered`) to the initial post-construction condition
and preserves the resolved effective sample rate and the fixed
construction-time configuration. Negotiation fields mirror the base class. -/
structure ModelTurnAnalyzer where
  init_sample_rate : Option Int
  sample_rate : Int
  speech_triggered : Bool
  buffered_audio : List (List Nat × Bool)

/-- Modelled from the spec: construction — optional fixed rate stored, rate
unresolved (zero), no speech seen, nothing buffered. -/
def ModelTurnAnalyzer.init (sample_rate : Option Int) : ModelTurnAnalyzer :=
  { init_sample_rate := sample_rate, sample_rate := 0,
    speech_triggered := false, buffered_audio := [] }

/-- Sample-rate negotiation on the model, as in the base class. -/
def ModelTurnAnalyzer.set_sample_rate (self : ModelTurnAnalyzer)
    (sample_rate : Int) : ModelTurnAnalyzer :=
  { self with sample_rate := pyOrOptInt self.init_sample_rate sample_rate }

/-- Modelled from the spec: `clear()` resets internal accumulation and
`speech_triggered`, preserving the sample-rate fields. -/
def ModelTurnAnalyzer.clear (self : ModelTurnAnalyzer) : ModelTurnAnalyzer :=
  { self with speech_triggered := false, buffered_audio := [] }

/-! ## Helper lemmas -/

theorem setAll_preserves_init {σ : Type} (rs : List Int)
    (a : BaseTurnAnalyzer σ) :
    (a.setAll rs)._init_sample_rate = a._init_sample_rate := by
  induction rs generalizing a with
  | nil => rfl
  | cons r rs ih => exact ih (a.set_sample_rate r)

theorem set_after_setAll {σ : Type} (a : BaseTurnAnalyzer σ) (rs : List Int)
    (r : Int) :
    ((a.setAll rs).set_sample_rate r).sample_rate
      = pyOrOptInt a._init_sample_rate r := by
  show pyOrOptInt ((a.setAll rs)._init_sample_rate) r
    = pyOrOptInt a._init_sample_rate r
  rw [setAll_preserves_init]

/-! ## Claims -/

/-- C1 counterexample: the claim fails for an analyzer constructed with the
fixed sample rate `0` — calling `set_sample_rate 16000` yields `16000`, not
the fixed value `0`. -/
theorem C1_counterexample :
    ¬ (((BaseTurnAnalyzer.init (some 0) ()).set_sample_rate 16000).sample_rate
        = 0) := by
  decide

/-- C1 (amended): for every analyzer constructed with a fixed NONZERO sample
rate and every proposed rate, `set_sample_rate` resolves the effective
sample rate (as returned by the `sample_rate` accessor) to the fixed
construction-time rate, regardless of the proposed rate. -/
theorem C1_fixed_nonzero_rate_overrides (σ : Type) (fixed : Int)
    (h : fixed ≠ 0) (s0 : σ) (r : Int) :
    ((BaseTurnAnalyzer.init (some fixed) s0).set_sample_rate r).sample_rate
      = fixed := by
  simp [BaseTurnAnalyzer.init, BaseTurnAnalyzer.set_sample_rate,
    BaseTurnAnalyzer.sample_rate, pyOrOptInt, h]

/-- C1 witness: fixed rate `8000`, proposed rate `16000` — the effective
rate resolves to `8000`. -/
theorem C1_fixed_nonzero_rate_overrides_witness :
    (8000 : Int) ≠ 0 ∧
    ((BaseTurnAnalyzer.init (some 8000) ()).set_sample_rate 16000).sample_rate
      = 8000 :=
  ⟨by decide, C1_fixed_nonzero_rate_overrides Unit 8000 (by decide) () 16000⟩

/-- C2: for every analyzer without a fixed construction-time rate and every
proposed rate, `set_sample_rate` sets the effective rate to the proposed
rate and the `sample_rate` accessor returns it. -/
theorem C2_no_fixed_rate_takes_proposed (σ : Type) (a : BaseTurnAnalyzer σ)
    (r : Int) (h : a._init_sample_rate = none) :
    (a.set_sample_rate r).sample_rate = r := by
  simp [BaseTurnAnalyzer.set_sample_rate, BaseTurnAnalyzer.sample_rate,
    pyOrOptInt, h]

/-- C2 witness: no fixed rate, proposed rate `16000` — the accessor returns
`16000`. -/
theorem C2_no_fixed_rate_takes_proposed_witness :
    (BaseTurnAnalyzer.init (none : Option Int) ())._init_sample_rate = none ∧
    ((BaseTurnAnalyzer.init (none : Option Int) ()).set_sample_rate 16000).sample_rate
      = 16000 :=
  ⟨rfl, C2_no_fixed_rate_takes_proposed Unit
    (BaseTurnAnalyzer.init none ()) 16000 rfl⟩

/-- C3: for every analyzer (fixed or not), the `sample_rate` accessor
returns `0` right after construction (before any `set_sample_rate` call),
and after a `set_sample_rate` call it returns the resolved value (the fixed
rate when one was given and nonzero, else the proposed rate). -/
theorem C3_zero_before_negotiation_resolved_after (σ : Type)
    (opt : Option Int) (s0 : σ) :
    (BaseTurnAnalyzer.init opt s0).sample_rate = 0 ∧
    ∀ r : Int,
      ((BaseTurnAnalyzer.init opt s0).set_sample_rate r).sample_rate
        = pyOrOptInt opt r := by
  exact ⟨rfl, fun r => rfl⟩

/-- C4: `set_sample_rate` is idempotent — a second call with the same rate
leaves the effective rate at the value the first call produced; and for an
analyzer with no fixed rate, calling `set_sample_rate 16000` twice resolves
the accessor to `16000` both times. -/
theorem C4_set_sample_rate_idempotent (σ : Type) (a : BaseTurnAnalyzer σ)
    (r : Int) :
    ((a.set_sample_rate r).set_sample_rate r).sample_rate
      = (a.set_sample_rate r).sample_rate ∧
    ((BaseTurnAnalyzer.init (none : Option Int) a.impl).set_sample_rate
        16000).sample_rate = 16000 ∧
    (((BaseTurnAnalyzer.init (none : Option Int) a.impl).set_sample_rate
        16000).set_sample_rate 16000).sample_rate = 16000 := by
  exact ⟨rfl, rfl, rfl⟩

/-- C5 counterexample: the claim fails for an analyzer constructed with the
fixed rate `0` — after the call sequence `[8000, 16000]` the effective rate
is `16000`, not the fixed value `0`. -/
theorem C5_counterexample :
    ¬ ((((BaseTurnAnalyzer.init (some 0) ()).set_sample_rate 8000).set_sample_rate
          16000).sample_rate = 0) := by
  decide

/-- C5 (amended): repeated `set_sample_rate` calls each re-resolve by the
same rule — with no fixed construction-time rate the effective rate after
any call sequence equals the last proposed rate; with a fixed NONZERO
construction-time rate it equals the fixed rate after every call. -/
theorem C5_repeated_calls_re_resolve (σ : Type) (s0 : σ) (rs : List Int)
    (r : Int) (fixed : Int) (h : fixed ≠ 0) :
    (((BaseTurnAnalyzer.init (none : Option Int) s0).setAll rs).set_sample_rate
        r).sample_rate = r ∧
    (((BaseTurnAnalyzer.init (some fixed) s0).setAll rs).set_sample_rate
        r).sample_rate = fixed := by
  constructor
  · rw [set_after_setAll]
    rfl
  · rw [set_after_setAll]
    simp [BaseTurnAnalyzer.init, pyOrOptInt, h]

/-- C5 witness: call sequence `[8000, 12000]` then `16000` — no fixed rate
resolves to `16000`; fixed rate `8000` resolves to `8000`. -/
theorem C5_repeated_calls_re_resolve_witness :
    (8000 : Int) ≠ 0 ∧
    ((((BaseTurnAnalyzer.init (none : Option Int) ()).setAll
        [8000, 12000]).set_sample_rate 16000).sample_rate = 16000 ∧
      (((BaseTurnAnalyzer.init (some 8000) ()).setAll
        [8000, 12000]).set_sample_rate 16000).sample_rate = 8000) :=
  ⟨by decide,
    C5_repeated_calls_re_resolve Unit () [8000, 12000] 16000 8000 (by decide)⟩

/-- C6: `set_sample_rate` touches only the effective-rate field — the
construction-time requested rate and all subclass state are unchanged. -/
theorem C6_set_sample_rate_frame (σ : Type) (a : BaseTurnAnalyzer σ)
    (r : Int) :
    (a.set_sample_rate r)._init_sample_rate = a._init_sample_rate ∧
    (a.set_sample_rate r).impl = a.impl :=
  ⟨rfl, rfl⟩

/-- C7: `EndOfTurnState` is exactly the two payload-free values `COMPLETE`
and `INCOMPLETE`, and every state returned by any `append_audio`
implementation, and the state component of any `analyze_end_of_turn`
implementation, is one of the two. -/
theorem C7_end_of_turn_state_two_valued (σ μ : Type) (f : AppendAudioImpl σ)
    (g : AnalyzeEndOfTurnImpl σ μ) (st : σ) (buf : List Nat) (sp : Bool) :
    EndOfTurnState.COMPLETE ≠ EndOfTurnState.INCOMPLETE ∧
    (∀ s : EndOfTurnState, s = .COMPLETE ∨ s = .INCOMPLETE) ∧
    ((f st buf sp).1 = .COMPLETE ∨ (f st buf sp).1 = .INCOMPLETE) ∧
    ((g st).1.1 = .COMPLETE ∨ (g st).1.1 = .INCOMPLETE) := by
  refine ⟨by decide, fun s => ?_, ?_, ?_⟩
  · cases s
    · exact Or.inl rfl
    · exact Or.inr rfl
  · cases h : (f st buf sp).1
    · exact Or.inl rfl
    · exact Or.inr rfl
  · cases h : (g st).1.1
    · exact Or.inl rfl
    · exact Or.inr rfl

/-- C8: on the spec-modelled concrete analyzer, `clear` preserves the
resolved effective sample rate and the fixed configuration while resetting
`speech_triggered` (and the internal accumulation) — for every analyzer
state, including any reached after negotiation and ingestion. -/
theorem C8_clear_preserves_rate_resets_speech (a : ModelTurnAnalyzer) :
    a.clear.sample_rate = a.sample_rate ∧
    a.clear.init_sample_rate = a.init_sample_rate ∧
    a.clear.speech_triggered = false ∧
    a.clear.buffered_audio = [] :=
  ⟨rfl, rfl, rfl, rfl⟩

/-- C9: an analyzer constructed with the fixed sample rate `0` resolves the
effective rate to the proposed rate — the truthiness test in
`set_sample_rate` makes a fixed rate of `0` behave as if no rate had been
fixed. -/
theorem C9_fixed_zero_behaves_as_unfixed (σ : Type) (s0 : σ) (r : Int) :
    ((BaseTurnAnalyzer.init (some 0) s0).set_sample_rate r).sample_rate = r ∧
    ((BaseTurnAnalyzer.init (some 0) s0).set_sample_rate r).sample_rate
      = ((BaseTurnAnalyzer.init (none : Option Int) s0).set_sample_rate
          r).sample_rate := by
  constructor
  · simp [BaseTurnAnalyzer.init, BaseTurnAnalyzer.set_sample_rate,
      BaseTurnAnalyzer.sample_rate, pyOrOptInt]
  · rfl

/-- C10: for an analyzer with no fixed rate, `set_sample_rate 0` leaves the
accessor returning `0`, exactly as before any negotiation; and the call
performs no validation — it succeeds and stores the proposed value for every
integer, zero and negatives included. -/
theorem C10_no_validation_zero_indistinguishable (σ : Type) (s0 : σ) :
    ((BaseTurnAnalyzer.init (none : Option Int) s0).set_sample_rate
        0).sample_rate
      = (BaseTurnAnalyzer.init (none : Option Int) s0).sample_rate ∧
    ((BaseTurnAnalyzer.init (none : Option Int) s0).set_sample_rate
        0).sample_rate = 0 ∧
    (∀ r : Int,
      ((BaseTurnAnalyzer.init (none : Option Int) s0).set_sample_rate
          r).sample_rate = r) := by
  exact ⟨rfl, rfl, fun r => rfl⟩
